import Mathlib

/-!
Verification of the image-translate backend's task manager, key rotator,
cluster scaler and result observer against their natural-language
specification.  The Python services are shallowly embedded as pure
functions: wall-clock readings become explicit `now : Nat` parameters
(epoch seconds), the coordination store becomes explicit state passing,
and float durations become exact `Int` arithmetic.  Base64-encoded image
payloads are treated as opaque strings, since no verified property
inspects their contents.
-/

/-- Task status enumeration, from `app/models/schemas.py` (`TaskStatus`). -/
inductive TaskStatus
  | pending
  | processing
  | completed
  | failed
  deriving DecidableEq, Repr

/-- Python truthiness of an optional string: `None` and the empty string
are falsy, every other string is truthy. -/
def optStrTruthy : Option String → Bool
  | some s => s ≠ ""
  | none => false

/-- Python `x or default` on an optional string. -/
def pyOrElse (x : Option String) (d : String) : String :=
  match x with
  | some s => if s = "" then d else s
  | none => d

/-- Modelled from the spec: the `ImageResult` pydantic model (per-image
outcome with `index`, `status`, optional `translated_text`, `error`,
`completed_at`, `processing_time`) is imported by
`app/services/task_manager.py` but its definition is missing from the
`schemas.py` present under `src/`; fields are taken from spec section 3
and from every use site in the source. -/
structure ImageResult where
  index : Nat
  status : TaskStatus
  translated_text : Option String := none
  error : Option String := none
  completed_at : Option Nat := none
  processing_time : Option Int := none
  deriving DecidableEq, Repr

instance : Inhabited ImageResult := ⟨{ index := 0, status := TaskStatus.pending }⟩

/-- The task record, from `app/models/schemas.py` (`TranslationTask`).
The multi-image fields `images_data`, `total_images`, `partial_results`
are modelled from the spec (section 3) and the use sites in
`task_manager.py`, since the `schemas.py` under `src/` predates them. -/
structure TranslationTask where
  task_id : String
  status : TaskStatus := TaskStatus.pending
  target_language : String
  created_at : Nat
  started_at : Option Nat := none
  completed_at : Option Nat := none
  image_data : Option String := none
  translated_text : Option String := none
  error : Option String := none
  processing_time : Option Int := none
  worker_id : Option String := none
  api_key_id : Option String := none
  images_data : List String := []
  total_images : Nat := 0
  partial_results : List ImageResult := []
  deriving DecidableEq, Repr

/-- `TaskManager.create_task` (task_manager.py lines 17-55): build the
task with one PENDING `ImageResult` per encoded image.  The base64
encoding of the raw bytes is abstracted: `encoded_images` are the
already-encoded opaque payload strings.  The redis `set`/`lpush` effects
are not part of the record returned here. -/
def create_task (task_id : String) (encoded_images : List String)
    (target_language : String) (now : Nat) : TranslationTask :=
  { task_id := task_id
    target_language := target_language
    created_at := now
    images_data := encoded_images
    total_images := encoded_images.length
    image_data := encoded_images.head?
    partial_results :=
      (List.range encoded_images.length).map
        (fun i => { index := i, status := TaskStatus.pending }) }

/-- The `while len(task.partial_results) <= image_index` padding loop of
`update_partial_result` (task_manager.py lines 231-236): append PENDING
entries, each indexed by the length at the moment of its append, until
the list has length at least `n`. -/
def padTo (rs : List ImageResult) (n : Nat) : List ImageResult :=
  rs ++ (List.range (n - rs.length)).map
    (fun k => { index := rs.length + k, status := TaskStatus.pending })

/-- The per-entry mutation of `update_partial_result` (task_manager.py
lines 238-253): stamp `completed_at`, then set the entry COMPLETED with
the translated text (when `result` is truthy) or FAILED with the error
(defaulting to "Unknown error"), computing `processing_time` from the
task's `started_at` when present. -/
def mkEntry (old : ImageResult) (result error : Option String)
    (started_at : Option Nat) (now : Nat) : ImageResult :=
  if optStrTruthy result then
    { old with
      completed_at := some now
      status := TaskStatus.completed
      translated_text := result
      processing_time :=
        match started_at with
        | some s => some ((now : Int) - (s : Int))
        | none => old.processing_time }
  else
    { old with
      completed_at := some now
      status := TaskStatus.failed
      error := some (pyOrElse error "Unknown error")
      processing_time :=
        match started_at with
        | some s => some ((now : Int) - (s : Int))
        | none => old.processing_time }

/-- Number of terminal (COMPLETED or FAILED) entries, as counted by
`sum(1 for r in task.partial_results if r.status in [COMPLETED, FAILED])`. -/
def terminalCount (rs : List ImageResult) : Nat :=
  rs.countP (fun r =>
    decide (r.status = TaskStatus.completed ∨ r.status = TaskStatus.failed))

/-- The aggregation step of `update_partial_result` (task_manager.py
lines 255-283): once the terminal count reaches `total_images`, set the
overall status, the backward-compatibility `translated_text`/`error`,
stamp `completed_at`, compute `processing_time`, and remove the task
from the processing set.  The returned flag records whether the `srem`
on the processing set was issued. -/
def applyAggregation (task : TranslationTask) (now : Nat) :
    TranslationTask × Bool :=
  let rs := task.partial_results
  if terminalCount rs ≥ task.total_images then
    let successful_count :=
      rs.countP (fun r => decide (r.status = TaskStatus.completed))
    let task1 :=
      if successful_count > 0 then
        { task with
          status := TaskStatus.completed
          translated_text :=
            match rs.find? (fun (r : ImageResult) =>
                decide (r.status = TaskStatus.completed) &&
                  optStrTruthy r.translated_text) with
            | some r => r.translated_text
            | none => task.translated_text }
      else
        { task with
          status := TaskStatus.failed
          error :=
            match rs.find? (fun (r : ImageResult) =>
                decide (r.status = TaskStatus.failed) &&
                  optStrTruthy r.error) with
            | some r => r.error
            | none => task.error }
    let task2 :=
      { task1 with
        completed_at := some now
        processing_time :=
          match task1.started_at with
          | some s => some ((now : Int) - (s : Int))
          | none => task1.processing_time }
    (task2, true)
  else
    (task, false)

/-- The partial-result list produced by `update_partial_result`
(task_manager.py lines 230-253): pad up to `image_index`, then
overwrite the entry at `image_index`. -/
def updatedResults (task : TranslationTask) (image_index : Nat)
    (result error : Option String) (now : Nat) : List ImageResult :=
  let rs := padTo task.partial_results (image_index + 1)
  rs.set image_index
    (mkEntry (rs.getD image_index default) result error task.started_at now)

/-- `TaskManager.update_partial_result` (task_manager.py lines 222-294)
as a pure function: pad the partial-result list up to `image_index`,
overwrite the entry at `image_index`, then run the aggregation step.
The second component records whether the task id was `srem`-ed from the
processing set. -/
def update_partial_result (task : TranslationTask) (image_index : Nat)
    (result error : Option String) (now : Nat) : TranslationTask × Bool :=
  applyAggregation
    { task with
      partial_results := updatedResults task image_index result error now }
    now

/-- `TaskManager.estimate_wait_time` (task_manager.py lines 296-317) with
the queue length already resolved: returns 0 on an empty queue, otherwise
the linear estimate clamped to [2, 300].  The float product
`queue_length * 2.5 * 2` is exactly `queue_length * 5`, so the Python
float floor-division is modelled by exact natural division. -/
def estimate_wait_time (queue_length processing_count : Nat) : Nat :=
  if queue_length = 0 then 0
  else
    let estimated_workers := max 1 processing_count
    let estimated_wait := queue_length * 5 / estimated_workers
    min (max estimated_wait 2) 300

/-- `APIKeyManager._disable_key_for_limit` (key_rotation.py lines
135-146): write the absolute `disable_until` timestamp only when its
remaining TTL is positive. -/
def disable_key_for_limit (disable_until now : Nat) : Option Nat :=
  if (disable_until : Int) - (now : Int) > 0 then some disable_until else none

/-- Observable outcome of one `record_key_usage` call: the counter
values after the increments, the `key_disabled_until` timestamps written
per limit type, whether the success metric was bumped, and the returned
availability flag. -/
structure UsageOutcome where
  rpm_count : Nat
  rpd_count : Nat
  tpm_count : Nat
  disabled_rpm : Option Nat
  disabled_rpd : Option Nat
  disabled_tpm : Option Nat
  success_incremented : Bool
  still_available : Bool
  deriving DecidableEq, Repr

/-- `APIKeyManager.record_key_usage` (key_rotation.py lines 176-243) as
a pure function of the pre-call counter values (`0` when the redis key
is absent), the tokens used, the configured limits and the current
time.  Increments rpm/rpd always and tpm when `tokens_used > 0`, rereads
the counters, and reactively disables: RPM and TPM violations write
`now + 60`, an RPD violation writes the next day boundary. -/
def record_key_usage (rpm_before rpd_before tpm_before : Nat)
    (tokens_used : Nat) (rpm_limit rpd_limit tpm_limit : Nat)
    (now : Nat) : UsageOutcome :=
  let current_day := now / 86400
  let rpm_count := rpm_before + 1
  let rpd_count := rpd_before + 1
  let tpm_count := if tokens_used > 0 then tpm_before + tokens_used else tpm_before
  let rpm_violation := rpm_count ≥ rpm_limit
  let rpd_violation := rpd_count ≥ rpd_limit
  let tpm_violation := tokens_used > 0 ∧ tpm_count ≥ tpm_limit
  { rpm_count := rpm_count
    rpd_count := rpd_count
    tpm_count := tpm_count
    disabled_rpm :=
      if rpm_violation then disable_key_for_limit (now + 60) now else none
    disabled_rpd :=
      if rpd_violation then
        disable_key_for_limit ((current_day + 1) * 86400) now
      else none
    disabled_tpm :=
      if tpm_violation then disable_key_for_limit (now + 60) now else none
    success_incremented := true
    still_available :=
      !(decide rpm_violation || decide rpd_violation || decide tpm_violation) }

/-- Modelled from the spec: the boundary of the minute after `t`, the
timestamp the spec says an RPM or TPM violation disables until.  Kept
separate from the source translation so the two can be compared. -/
def specNextMinuteBoundary (t : Nat) : Nat :=
  (t / 60 + 1) * 60

/-- Observable outcome of `mark_key_failed`: the incremented failure
count, the TTL written on the `key_failed:{id}` marker, the TTL on the
failure counter, and the error-metric bump. -/
structure FailureOutcome where
  failure_count : Nat
  failed_ttl : Nat
  failures_ttl : Nat
  error_incremented : Bool
  deriving DecidableEq, Repr

/-- `APIKeyManager.mark_key_failed` (key_rotation.py lines 245-272) as
a pure function of the stored failure count (absent key reads as 0):
increment the count, compute the exponential backoff
`min(base * 3 ^ (count - 1), 7200)` and write the failure marker with
that TTL. -/
def mark_key_failed (stored_failures : Option Nat)
    (failure_duration : Nat) : FailureOutcome :=
  let failure_count := (match stored_failures with
    | some n => n
    | none => 0) + 1
  let backoff_duration := min (failure_duration * 3 ^ (failure_count - 1)) 7200
  { failure_count := failure_count
    failed_ttl := backoff_duration
    failures_ttl := 86400
    error_incremented := true }

/-- What a scaling round does to the `cluster:consecutive_low_queue`
counter. -/
inductive CounterAction
  | reset
  | increment
  | unchanged
  deriving DecidableEq, Repr

/-- `DistributedWorkerPool._calculate_cluster_target` (worker_pool.py
lines 349-384) as a pure function of the queue pressure, the current
cluster worker count, the cluster capacity, the configured minimum and
the stored `cluster:consecutive_low_queue` counter.  Returns the target
together with the action applied to the counter.  All quantities are
non-negative; `current_workers - min 10 (current_workers / 4)` never
underflows because the subtrahend is at most `current_workers`. -/
def calculate_cluster_target (min_workers : Nat) (queue_pressure : Nat)
    (current_workers : Nat) (max_capacity : Nat)
    (consecutive_low : Nat) : Nat × CounterAction :=
  let step : Nat × CounterAction :=
    if queue_pressure > 500 then
      (min (current_workers + 50) max_capacity, CounterAction.unchanged)
    else if queue_pressure > 200 then
      (min (current_workers + 25) max_capacity, CounterAction.unchanged)
    else if queue_pressure > 100 then
      (min (current_workers + 15) max_capacity, CounterAction.unchanged)
    else if queue_pressure > 50 then
      (min (current_workers + 5) max_capacity, CounterAction.unchanged)
    else if queue_pressure < 10 then
      if consecutive_low ≥ 3 then
        (max (current_workers - min 10 (current_workers / 4)) min_workers,
          CounterAction.reset)
      else
        (current_workers, CounterAction.increment)
    else
      (current_workers, CounterAction.reset)
  (max (min step.1 max_capacity) min_workers, step.2)

/-- The leader's local share in `_lead_scaling_decision` (worker_pool.py
lines 289-311): `base_target + 1` whenever the remainder is positive,
independent of the leader's position among the instances. -/
def lead_local_target (target_cluster_workers instance_count : Nat) : Nat :=
  let base_target := target_cluster_workers / instance_count
  let remainder := target_cluster_workers % instance_count
  base_target + (if remainder > 0 then 1 else 0)

/-- Modelled from the spec for comparison with `lead_local_target`
(claim C4): the spec says the leader's share is `base + 1` exactly when
the leader's id is among the first `remainder` instance ids in sorted
order. -/
def lead_local_target_specModel (target_cluster_workers : Nat)
    (sorted_instances : List String) (leader_id : String) : Nat :=
  let k := sorted_instances.length
  let base_target := target_cluster_workers / k
  let remainder := target_cluster_workers % k
  base_target +
    (if leader_id ∈ sorted_instances.take remainder then 1 else 0)

/-- A follower's local share in `_follow_scaling_decision`
(worker_pool.py lines 329-341): `base + 1` exactly when the instance's
position in the sorted active-instance list is below the remainder;
an instance absent from the list takes the base.  `sorted_instances` is
the result of Python's `sorted(...)` over the active-instance set. -/
def follow_local_target (base_target remainder : Nat)
    (sorted_instances : List String) (instance_id : String) : Nat :=
  match sorted_instances.findIdx? (fun s => s == instance_id) with
  | some instance_index =>
      base_target + (if instance_index < remainder then 1 else 0)
  | none => base_target

/-- Response record of the result endpoint, from
`app/models/schemas.py` (`TaskResultResponse`); the multi-image fields
are modelled from the spec and the construction sites in
`app/api/translation.py`. -/
structure TaskResultResponse where
  task_id : String
  status : TaskStatus
  success : Option Bool
  partial_results : List ImageResult
  completed_images : Nat
  total_images : Nat
  progress_percentage : ℚ
  translated_text : Option String
  target_language : Option String
  created_at : Option Nat
  started_at : Option Nat
  completed_at : Option Nat
  processing_time : Option Int
  error : Option String
  deriving DecidableEq, Repr

/-- Outcome of one iteration of the long-poll loop: a 404, an immediate
response, or another wait of `POLLING_CHECK_INTERVAL`. -/
inductive PollStep
  | notFound (code : Nat)
  | response (resp : TaskResultResponse)
  | keepWaiting
  deriving DecidableEq, Repr

/-- One iteration of the polling loop of `get_translation_result`
(translation.py lines 168-230), applied to the task record currently
stored under the requested id (`none` when absent).  The surrounding
loop repeats this step until it produces a terminal `PollStep` or the
timeout elapses; wall-clock aspects of the loop are outside the model. -/
def poll_check (stored_task : Option TranslationTask) : PollStep :=
  match stored_task with
  | none => PollStep.notFound 404
  | some task =>
    if task.partial_results.length > 0 then
      let completed_count := terminalCount task.partial_results
      let progress_percentage : ℚ :=
        if task.total_images > 0 then
          ((completed_count : ℚ) / (task.total_images : ℚ)) * 100
        else 0
      if completed_count > 0 ∨ task.status = TaskStatus.completed ∨
          task.status = TaskStatus.failed then
        PollStep.response
          { task_id := task.task_id
            status := task.status
            success :=
              if task.status = TaskStatus.completed ∨
                  task.status = TaskStatus.failed then
                some (decide (task.status = TaskStatus.completed))
              else none
            partial_results := task.partial_results
            completed_images := completed_count
            total_images := task.total_images
            progress_percentage := progress_percentage
            translated_text := task.translated_text
            target_language := some task.target_language
            created_at := some task.created_at
            started_at := task.started_at
            completed_at := task.completed_at
            processing_time := task.processing_time
            error := task.error }
      else PollStep.keepWaiting
    else if task.status = TaskStatus.completed ∨
        task.status = TaskStatus.failed then
      let success := decide (task.status = TaskStatus.completed)
      PollStep.response
        { task_id := task.task_id
          status := task.status
          success := some success
          partial_results := []
          completed_images := if success then 1 else 0
          total_images := 1
          progress_percentage := if success then 100 else 0
          translated_text := task.translated_text
          target_language := some task.target_language
          created_at := some task.created_at
          started_at := task.started_at
          completed_at := task.completed_at
          processing_time := task.processing_time
          error := task.error }
    else PollStep.keepWaiting

/-- The task-manager-visible slice of the coordination store: the
serialized task records under `tasks:{id}` (an association list whose
first binding wins, so prepending models an overwriting SET) and the
`processing_tasks` set. -/
structure TaskStore where
  tasks : List (String × TranslationTask)
  processing : List String
  deriving DecidableEq, Repr

/-- Redis GET on the task keyspace: first binding wins. -/
def lookupTask : List (String × TranslationTask) → String →
    Option TranslationTask
  | [], _ => none
  | (k, v) :: rest, id => if k = id then some v else lookupTask rest id

/-- Redis SET on the task keyspace: prepend, shadowing older bindings. -/
def setTask (ts : List (String × TranslationTask)) (id : String)
    (t : TranslationTask) : List (String × TranslationTask) :=
  (id, t) :: ts

/-- The FAILED branch of `TaskManager.update_task_status`
(task_manager.py lines 73-123) as used by `fail_task`: stamp
`completed_at`, set the error, take the caller's `processing_time`,
recompute it from `started_at` when the caller's value was falsy, and
let the trailing kwargs loop re-apply the caller's value when one was
passed.  Returns the updated keyspace and the function's boolean
result (false when the task record is absent). -/
def update_task_status_failed (ts : List (String × TranslationTask))
    (task_id : String) (error : String) (processing_time? : Option Int)
    (now : Nat) : List (String × TranslationTask) × Bool :=
  match lookupTask ts task_id with
  | none => (ts, false)
  | some task0 =>
    let task1 := { task0 with
      status := TaskStatus.failed
      completed_at := some now
      error := some error
      processing_time := processing_time? }
    let task2 :=
      if task1.processing_time = none ∨ task1.processing_time = some 0 then
        match task1.started_at with
        | some s => { task1 with processing_time := some ((now : Int) - (s : Int)) }
        | none => task1
      else task1
    let task3 := match processing_time? with
      | some p => { task2 with processing_time := some p }
      | none => task2
    (setTask ts task_id task3, true)

/-- `TaskManager.fail_task` (task_manager.py lines 170-189): `srem` the
id from the processing set, then update the record to FAILED. -/
def fail_task (st : TaskStore) (task_id : String) (error : String)
    (processing_time? : Option Int) (now : Nat) : TaskStore × Bool :=
  let st1 : TaskStore := { st with processing := st.processing.erase task_id }
  let p := update_task_status_failed st1.tasks task_id error
    processing_time? now
  ({ st1 with tasks := p.1 }, p.2)

/-- The timeout message written by `cleanup_stale_tasks`; the `:.0f`
float formatting is abstracted to `toString` on the integral duration. -/
def timeoutErrorMsg (d : Int) : String :=
  "Task timed out after " ++ toString d ++ " seconds"

/-- One iteration of the `for task_id in processing_tasks` loop of
`cleanup_stale_tasks` (task_manager.py lines 325-341): skip ids whose
record is absent or has no `started_at`; fail the task when the
processing duration exceeds `max_processing_time`. -/
def cleanup_step (max_processing_time now : Nat) (acc : TaskStore × Nat)
    (task_id : String) : TaskStore × Nat :=
  match lookupTask acc.1.tasks task_id with
  | none => acc
  | some task =>
    match task.started_at with
    | none => acc
    | some s =>
      let processing_duration : Int := (now : Int) - (s : Int)
      if processing_duration > (max_processing_time : Int) then
        ((fail_task acc.1 task_id (timeoutErrorMsg processing_duration)
            (some processing_duration) now).1,
          acc.2 + 1)
      else acc

/-- `TaskManager.cleanup_stale_tasks` (task_manager.py lines 319-347):
fold the cleanup step over the snapshot of the processing set, returning
the updated store and the cleanup count. -/
def cleanup_stale_tasks (st : TaskStore) (max_processing_time now : Nat) :
    TaskStore × Nat :=
  st.processing.foldl (cleanup_step max_processing_time now) (st, 0)

/-- The boundary of the day after `now` lies strictly after `now`, so
the RPD disable write always has a positive TTL. -/
theorem next_day_boundary_pos (now : Nat) : now < (now / 86400 + 1) * 86400 := by
  have h1 := Nat.div_add_mod now 86400
  have h2 := Nat.mod_lt now (show 0 < 86400 by decide)
  omega

/-- Claim C9 counterexample: with an empty queue `estimate_wait_time`
returns 0, which lies outside the claimed interval [2, 300]. -/
theorem estimate_wait_time_zero_queue :
    estimate_wait_time 0 0 = 0 ∧ ¬(2 ≤ estimate_wait_time 0 0) := by
  decide

/-- Claim C9 as amended: for a positive queue length (and any
processing-set cardinality) the estimate is clamped to [2, 300]; an
empty queue short-circuits to 0. -/
theorem estimate_wait_time_clamped (queue_length processing_count : Nat)
    (hq : 0 < queue_length) :
    2 ≤ estimate_wait_time queue_length processing_count ∧
      estimate_wait_time queue_length processing_count ≤ 300 := by
  unfold estimate_wait_time
  rw [if_neg (by omega)]
  constructor
  · exact le_min (le_max_right _ _) (by omega)
  · exact min_le_right _ _

/-- Claim C9 amended witness at queue length 7, processing count 3. -/
theorem estimate_wait_time_clamped_witness :
    0 < 7 ∧ (2 ≤ estimate_wait_time 7 3 ∧ estimate_wait_time 7 3 ≤ 300) :=
  ⟨by decide, estimate_wait_time_clamped 7 3 (by decide)⟩

/-- Claim C8: when the stored failure count before the call is n - 1
(zero when the counter key is absent), `mark_key_failed` increments the
count to n and writes the failure marker with a TTL of exactly
min(base * 3 ^ (n - 1), 7200) seconds. -/
theorem mark_key_failed_backoff (stored_failures : Option Nat)
    (base n : Nat) (hn : 1 ≤ n)
    (h : stored_failures.getD 0 = n - 1) :
    (mark_key_failed stored_failures base).failure_count = n ∧
      (mark_key_failed stored_failures base).failed_ttl =
        min (base * 3 ^ (n - 1)) 7200 := by
  cases stored_failures with
  | none =>
      simp only [Option.getD_none] at h
      have h1 : n = 1 := by omega
      subst h1
      dsimp only [mark_key_failed]
      refine ⟨rfl, ?_⟩
      norm_num
  | some m =>
      simp only [Option.getD_some] at h
      dsimp only [mark_key_failed]
      constructor
      · omega
      · have h1 : m + 1 - 1 = n - 1 := by omega
        rw [h1]

/-- Claim C8 witness: third failure with the default 300s base gives a
TTL of min(300 * 9, 7200) = 2700 seconds. -/
theorem mark_key_failed_backoff_witness :
    (1 ≤ 3 ∧ (Option.getD (some 2) 0 = 3 - 1)) ∧
      ((mark_key_failed (some 2) 300).failure_count = 3 ∧
        (mark_key_failed (some 2) 300).failed_ttl = min (300 * 3 ^ (3 - 1)) 7200) :=
  ⟨⟨by decide, by decide⟩, mark_key_failed_backoff (some 2) 300 3 (by decide) (by decide)⟩

/-- Claim C2 counterexample: at time 30 with an RPM limit of 1, the
call disables the credential until 90 = 30 + 60, while the next minute
boundary after 30 is 60; the claimed timestamp is wrong for RPM. -/
theorem record_key_usage_rpm_not_minute_boundary :
    (record_key_usage 0 0 0 0 1 100 100 30).disabled_rpm = some 90 ∧
      specNextMinuteBoundary 30 = 60 ∧ (90 : Nat) ≠ 60 := by
  decide

/-- Claim C2 as amended: the rpm, rpd and (when tokens are used) tpm
counters are incremented and reread; a violating RPM or TPM count
disables the credential until `now + 60` (sixty seconds after the call,
not the next minute boundary), a violating RPD count until the next day
boundary; the call returns false exactly when it wrote at least one
`disabled_until` key. -/
theorem record_key_usage_disable_timestamps
    (rpm_before rpd_before tpm_before tokens_used : Nat)
    (rpm_limit rpd_limit tpm_limit now : Nat) :
    (record_key_usage rpm_before rpd_before tpm_before tokens_used
      rpm_limit rpd_limit tpm_limit now).rpm_count = rpm_before + 1 ∧
    (record_key_usage rpm_before rpd_before tpm_before tokens_used
      rpm_limit rpd_limit tpm_limit now).rpd_count = rpd_before + 1 ∧
    (record_key_usage rpm_before rpd_before tpm_before tokens_used
      rpm_limit rpd_limit tpm_limit now).tpm_count =
      (if 0 < tokens_used then tpm_before + tokens_used else tpm_before) ∧
    (record_key_usage rpm_before rpd_before tpm_before tokens_used
      rpm_limit rpd_limit tpm_limit now).disabled_rpm =
      (if rpm_limit ≤ rpm_before + 1 then some (now + 60) else none) ∧
    (record_key_usage rpm_before rpd_before tpm_before tokens_used
      rpm_limit rpd_limit tpm_limit now).disabled_rpd =
      (if rpd_limit ≤ rpd_before + 1 then
        some ((now / 86400 + 1) * 86400) else none) ∧
    (record_key_usage rpm_before rpd_before tpm_before tokens_used
      rpm_limit rpd_limit tpm_limit now).disabled_tpm =
      (if 0 < tokens_used ∧ tpm_limit ≤
          (if 0 < tokens_used then tpm_before + tokens_used
            else tpm_before) then
        some (now + 60) else none) ∧
    ((record_key_usage rpm_before rpd_before tpm_before tokens_used
        rpm_limit rpd_limit tpm_limit now).still_available = false ↔
      ((record_key_usage rpm_before rpd_before tpm_before tokens_used
          rpm_limit rpd_limit tpm_limit now).disabled_rpm.isSome ∨
        (record_key_usage rpm_before rpd_before tpm_before tokens_used
          rpm_limit rpd_limit tpm_limit now).disabled_rpd.isSome ∨
        (record_key_usage rpm_before rpd_before tpm_before tokens_used
          rpm_limit rpd_limit tpm_limit now).disabled_tpm.isSome)) := by
  have hminute : disable_key_for_limit (now + 60) now = some (now + 60) := by
    unfold disable_key_for_limit
    rw [if_pos (by push_cast; omega)]
  have hday : disable_key_for_limit ((now / 86400 + 1) * 86400) now =
      some ((now / 86400 + 1) * 86400) := by
    unfold disable_key_for_limit
    have := next_day_boundary_pos now
    rw [if_pos (by push_cast; omega)]
  unfold record_key_usage
  simp only [hminute, hday, ge_iff_le, gt_iff_lt]
  refine ⟨trivial, trivial, trivial, trivial, trivial, trivial, ?_⟩
  by_cases h1 : rpm_limit ≤ rpm_before + 1 <;>
    by_cases h2 : rpd_limit ≤ rpd_before + 1 <;>
    by_cases h3 : 0 < tokens_used ∧
      tpm_limit ≤ (if 0 < tokens_used then tpm_before + tokens_used
        else tpm_before) <;>
    simp [h1, h2, h3]

/-- Claim C3 counterexample: on the third consecutive low reading (the
stored counter is 2) with pressure 5, 40 cluster workers, capacity 100
and minimum 1, the code keeps 40 workers and merely increments the
counter, while the claim prescribes scaling down to 40 - min 10 (40/4)
= 30. -/
theorem cluster_target_third_low_reading_no_scale_down :
    calculate_cluster_target 1 5 40 100 2 = (40, CounterAction.increment) ∧
      (40 : Nat) ≠ 40 - min 10 (40 / 4) := by
  decide

/-- Claim C3 as amended: the pressure table is as claimed except that
the scale-down fires only when the stored consecutive-low counter is
already at least 3 — that is, on the fourth or later consecutive low
reading, the first three merely increment the counter — and the result
is always clamped as `max (min target capacity) min_workers`. -/
theorem cluster_target_cases (min_workers p w cap c : Nat) :
    (500 < p →
      (calculate_cluster_target min_workers p w cap c).1 =
        max (min (w + 50) cap) min_workers) ∧
    (200 < p → p ≤ 500 →
      (calculate_cluster_target min_workers p w cap c).1 =
        max (min (w + 25) cap) min_workers) ∧
    (100 < p → p ≤ 200 →
      (calculate_cluster_target min_workers p w cap c).1 =
        max (min (w + 15) cap) min_workers) ∧
    (50 < p → p ≤ 100 →
      (calculate_cluster_target min_workers p w cap c).1 =
        max (min (w + 5) cap) min_workers) ∧
    (p < 10 → 3 ≤ c →
      calculate_cluster_target min_workers p w cap c =
        (max (min (max (w - min 10 (w / 4)) min_workers) cap) min_workers,
          CounterAction.reset)) ∧
    (p < 10 → c < 3 →
      calculate_cluster_target min_workers p w cap c =
        (max (min w cap) min_workers, CounterAction.increment)) ∧
    (10 ≤ p → p ≤ 50 →
      calculate_cluster_target min_workers p w cap c =
        (max (min w cap) min_workers, CounterAction.reset)) := by
  unfold calculate_cluster_target
  refine ⟨?_, ?_, ?_, ?_, ?_, ?_, ?_⟩ <;> intros <;>
    simp only [if_pos, if_neg, gt_iff_lt, ge_iff_le] <;>
    split_ifs <;> first | rfl | omega

/-- Claim C3 amended witness: pressure 600 takes the +50 branch. -/
theorem cluster_target_cases_witness :
    500 < 600 ∧
      (calculate_cluster_target 1 600 10 100 0).1 = max (min (10 + 50) 100) 1 :=
  ⟨by decide, (cluster_target_cases 1 600 10 100 0).1 (by decide)⟩

/-- Claim C4 counterexample: instances are a < b, the leader is b and
the cluster target is 3, so base = 1 and remainder = 1.  The first
remainder instances in sorted order are [a], which do not contain the
leader b, so the claim gives the leader a share of 1; the code gives it
base + 1 = 2 because the remainder is positive. -/
theorem leader_share_ignores_sorted_position :
    lead_local_target 3 2 = 2 ∧
      lead_local_target_specModel 3 ["a", "b"] "b" = 1 ∧ (2 : Nat) ≠ 1 := by
  decide

/-- Claim C4 as amended: a follower applies base + 1 exactly when its
position in the sorted instance list is below the remainder (an
instance absent from the list applies the base), but the leader applies
base + 1 exactly when the remainder is positive, regardless of its
sorted position. -/
theorem local_share_distribution (target k base rem : Nat)
    (sorted_instances : List String) (follower_id : String) :
    (lead_local_target target k =
      target / k + (if 0 < target % k then 1 else 0)) ∧
    (∀ idx, sorted_instances.findIdx? (fun s => s == follower_id) = some idx →
      follow_local_target base rem sorted_instances follower_id =
        base + (if idx < rem then 1 else 0)) ∧
    (sorted_instances.findIdx? (fun s => s == follower_id) = none →
      follow_local_target base rem sorted_instances follower_id = base) := by
  refine ⟨rfl, ?_, ?_⟩
  · intro idx hidx
    unfold follow_local_target
    rw [hidx]
  · intro hnone
    unfold follow_local_target
    rw [hnone]

/-- Claim C4 amended witness: follower a at position 0 with remainder 1
gets base + 1; the leader with target 3 across 2 instances gets 2. -/
theorem local_share_distribution_witness :
    (["a", "b"].findIdx? (fun s => s == "a") = some 0 ∧
      follow_local_target 1 1 ["a", "b"] "a" = 1 + (if 0 < 1 then 1 else 0)) ∧
      lead_local_target 3 2 = 3 / 2 + (if 0 < 3 % 2 then 1 else 0) :=
  ⟨⟨by decide,
    (local_share_distribution 3 2 1 1 ["a", "b"] "a").2.1 0 (by decide)⟩,
    (local_share_distribution 3 2 1 1 ["a", "b"] "a").1⟩

/-- Padding never shortens the list: the result has length
`max rs.length n`. -/
theorem padTo_length (rs : List ImageResult) (n : Nat) :
    (padTo rs n).length = max rs.length n := by
  unfold padTo
  simp [List.length_append, List.length_map, List.length_range]
  omega

/-- Padding a list that is already long enough is the identity. -/
theorem padTo_eq_self {rs : List ImageResult} {n : Nat}
    (h : n ≤ rs.length) : padTo rs n = rs := by
  unfold padTo
  have h0 : n - rs.length = 0 := by omega
  simp [h0]

/-- Every element of a padded list is an original element or a PENDING
filler. -/
theorem mem_padTo {rs : List ImageResult} {n : Nat} {r : ImageResult}
    (h : r ∈ padTo rs n) : r ∈ rs ∨ r.status = TaskStatus.pending := by
  unfold padTo at h
  rcases List.mem_append.mp h with h1 | h2
  · exact Or.inl h1
  · right
    rcases List.mem_map.mp h2 with ⟨k, _, rfl⟩
    rfl

/-- Reading back an element just written by `List.set`. -/
theorem list_getD_set_self :
    ∀ (rs : List ImageResult) (i : Nat) (e d : ImageResult),
      i < rs.length → (rs.set i e).getD i d = e
  | [], i, _, _, h => absurd h (by simp)
  | _ :: _, 0, _, _, _ => rfl
  | _ :: rs, i + 1, e, d, h =>
      list_getD_set_self rs i e d (by simpa using h)

/-- Writing back the element already present is the identity. -/
theorem list_set_getD_self :
    ∀ (rs : List ImageResult) (i : Nat) (d : ImageResult),
      i < rs.length → rs.set i (rs.getD i d) = rs
  | [], i, _, h => absurd h (by simp)
  | _ :: _, 0, _, _ => rfl
  | r :: rs, i + 1, d, h => by
      have ih := list_set_getD_self rs i d (by simpa using h)
      simpa using ih

/-- Rewriting an entry with the same payload, clock and task start time
is idempotent. -/
theorem mkEntry_idem (old : ImageResult) (result error : Option String)
    (started_at : Option Nat) (now : Nat) :
    mkEntry (mkEntry old result error started_at now) result error
      started_at now = mkEntry old result error started_at now := by
  unfold mkEntry
  by_cases hr : optStrTruthy result = true
  · simp only [hr, if_true]
    cases started_at <;> rfl
  · simp only [Bool.not_eq_true] at hr
    simp only [hr, Bool.false_eq_true, if_false]
    cases started_at <;> rfl

/-- Below the terminal threshold the aggregation step does nothing and
the task stays out of the `srem`. -/
theorem applyAggregation_below (task : TranslationTask) (now : Nat)
    (h : terminalCount task.partial_results < task.total_images) :
    applyAggregation task now = (task, false) := by
  unfold applyAggregation
  rw [if_neg (by omega)]

/-- Field-level characterization of the aggregation step once the
terminal count has reached `total_images`. -/
theorem applyAggregation_terminal (task : TranslationTask) (now : Nat)
    (hc : task.total_images ≤ terminalCount task.partial_results) :
    applyAggregation task now =
      ({ task with
          status :=
            if 0 < task.partial_results.countP
                (fun r => decide (r.status = TaskStatus.completed)) then
              TaskStatus.completed
            else TaskStatus.failed
          translated_text :=
            if 0 < task.partial_results.countP
                (fun r => decide (r.status = TaskStatus.completed)) then
              match task.partial_results.find? (fun (r : ImageResult) =>
                  decide (r.status = TaskStatus.completed) &&
                    optStrTruthy r.translated_text) with
              | some r => r.translated_text
              | none => task.translated_text
            else task.translated_text
          error :=
            if 0 < task.partial_results.countP
                (fun r => decide (r.status = TaskStatus.completed)) then
              task.error
            else
              match task.partial_results.find? (fun (r : ImageResult) =>
                  decide (r.status = TaskStatus.failed) &&
                    optStrTruthy r.error) with
              | some r => r.error
              | none => task.error
          completed_at := some now
          processing_time :=
            match task.started_at with
            | some s => some ((now : Int) - (s : Int))
            | none => task.processing_time }, true) := by
  unfold applyAggregation
  rw [if_pos (by omega)]
  by_cases hs : 0 < task.partial_results.countP
      (fun r => decide (r.status = TaskStatus.completed))
  · simp only [hs, if_true]
  · simp only [hs, if_false]

/-- The aggregation step never touches the partial-result list. -/
theorem applyAggregation_fst_partial_results (task : TranslationTask)
    (now : Nat) :
    (applyAggregation task now).1.partial_results = task.partial_results := by
  by_cases hc : task.total_images ≤ terminalCount task.partial_results
  · rw [applyAggregation_terminal task now hc]
  · rw [applyAggregation_below task now (by omega)]

/-- The aggregation step never touches `started_at`. -/
theorem applyAggregation_fst_started_at (task : TranslationTask)
    (now : Nat) :
    (applyAggregation task now).1.started_at = task.started_at := by
  by_cases hc : task.total_images ≤ terminalCount task.partial_results
  · rw [applyAggregation_terminal task now hc]
  · rw [applyAggregation_below task now (by omega)]

/-- The aggregation step never touches `total_images`. -/
theorem applyAggregation_fst_total_images (task : TranslationTask)
    (now : Nat) :
    (applyAggregation task now).1.total_images = task.total_images := by
  by_cases hc : task.total_images ≤ terminalCount task.partial_results
  · rw [applyAggregation_terminal task now hc]
  · rw [applyAggregation_below task now (by omega)]

/-- The aggregation step is idempotent at a fixed clock. -/
theorem applyAggregation_idem (t : TranslationTask) (now : Nat) :
    applyAggregation (applyAggregation t now).1 now =
      applyAggregation t now := by
  by_cases hc : t.total_images ≤ terminalCount t.partial_results
  · rw [applyAggregation_terminal t now hc]
    rw [applyAggregation_terminal _ now (by exact hc)]
    dsimp only
    by_cases hs : 0 < t.partial_results.countP
        (fun r => decide (r.status = TaskStatus.completed))
    · simp only [if_pos hs, Prod.mk.injEq, and_true]
      rcases hf : t.partial_results.find? (fun (r : ImageResult) =>
          decide (r.status = TaskStatus.completed) &&
            optStrTruthy r.translated_text) with _ | r <;>
        rcases ht : t.started_at with _ | s <;> simp [hf, ht]
    · simp only [if_neg hs, Prod.mk.injEq, and_true]
      rcases hf : t.partial_results.find? (fun (r : ImageResult) =>
          decide (r.status = TaskStatus.failed) &&
            optStrTruthy r.error) with _ | r <;>
        rcases ht : t.started_at with _ | s <;> simp [hf, ht]
  · have hb := applyAggregation_below t now (by omega)
    rw [hb]
    exact hb

/-- Claim C6: at a fixed clock reading, updating the same image index of
the same task twice with the same payload yields the same stored record
and the same processing-set effect as updating it once. -/
theorem update_partial_result_idempotent (task : TranslationTask)
    (image_index : Nat) (result error : Option String) (now : Nat) :
    update_partial_result
        (update_partial_result task image_index result error now).1
        image_index result error now =
      update_partial_result task image_index result error now := by
  unfold update_partial_result
  set R := updatedResults task image_index result error now with hR
  set u : TranslationTask := { task with partial_results := R } with hu
  set t1 := (applyAggregation u now).1 with ht1
  have hpr : t1.partial_results = R := by
    rw [ht1]
    exact applyAggregation_fst_partial_results u now
  have hst : t1.started_at = task.started_at := by
    rw [ht1]
    exact applyAggregation_fst_started_at u now
  have hlenpad :
      image_index < (padTo task.partial_results (image_index + 1)).length := by
    rw [padTo_length]
    omega
  have hlenR : image_index < R.length := by
    rw [hR]
    unfold updatedResults
    rw [List.length_set, padTo_length]
    omega
  have hget : R.getD image_index default =
      mkEntry ((padTo task.partial_results (image_index + 1)).getD
          image_index default) result error task.started_at now := by
    rw [hR]
    exact list_getD_set_self _ _ _ _ hlenpad
  have hupdated : updatedResults t1 image_index result error now = R := by
    unfold updatedResults
    rw [hpr, padTo_eq_self hlenR, hst]
    show R.set image_index
      (mkEntry (R.getD image_index default) result error task.started_at now) = R
    rw [hget, mkEntry_idem, ← hget]
    exact list_set_getD_self R image_index default hlenR
  rw [hupdated, ← hpr]
  show applyAggregation t1 now = applyAggregation u now
  rw [ht1]
  exact applyAggregation_idem u now

/-- Well-formedness used by claim C1: every COMPLETED entry carries a
truthy (non-empty) translated text.  Every state the service produces
satisfies this, since an entry only becomes COMPLETED together with a
truthy result string. -/
def completedWF (rs : List ImageResult) : Prop :=
  ∀ r ∈ rs, r.status = TaskStatus.completed →
    optStrTruthy r.translated_text = true

instance (rs : List ImageResult) : Decidable (completedWF rs) :=
  inferInstanceAs (Decidable (∀ r ∈ rs,
    r.status = TaskStatus.completed → optStrTruthy r.translated_text = true))

/-- Under `completedWF`, the backward-compatibility scan for the first
COMPLETED entry with a truthy text finds exactly the first COMPLETED
entry. -/
theorem find?_completed_of_WF {rs : List ImageResult}
    (h : completedWF rs) :
    rs.find? (fun (r : ImageResult) =>
        decide (r.status = TaskStatus.completed) &&
          optStrTruthy r.translated_text) =
      rs.find? (fun (r : ImageResult) =>
        decide (r.status = TaskStatus.completed)) := by
  induction rs with
  | nil => rfl
  | cons a l ih =>
    have ha := h a (List.mem_cons_self a l)
    have hl : completedWF l := fun r hr => h r (List.mem_cons_of_mem a hr)
    by_cases hs : a.status = TaskStatus.completed
    · have htr := ha hs
      simp [List.find?_cons, hs, htr]
    · simp [List.find?_cons, hs, ih hl]

/-- The updated partial-result list stays well formed: padding adds
PENDING entries and the overwritten entry is COMPLETED only together
with a truthy result. -/
theorem completedWF_updatedResults (task : TranslationTask)
    (image_index : Nat) (result error : Option String) (now : Nat)
    (h : completedWF task.partial_results) :
    completedWF (updatedResults task image_index result error now) := by
  intro r hr
  unfold updatedResults at hr
  rcases List.mem_or_eq_of_mem_set hr with hmem | heq
  · rcases mem_padTo hmem with h1 | h2
    · exact h r h1
    · intro hcomp
      rw [h2] at hcomp
      cases hcomp
  · subst heq
    intro hcomp
    unfold mkEntry at hcomp ⊢
    by_cases htr : optStrTruthy result = true
    · simp [htr]
    · simp only [Bool.not_eq_true] at htr
      simp [htr, Bool.false_eq_true] at hcomp

/-- Claim C1: when an `update_partial_result` call brings the number of
terminal partial results up to `total_images`, it returns the task with
status COMPLETED if some partial result is COMPLETED — copying the
first COMPLETED entry's translated text — and FAILED otherwise, stamps
`completed_at`, and removes the task id from the processing set; while
the terminal count is still below `total_images` the status is left
unchanged and no `srem` is issued. -/
theorem update_partial_result_aggregation (task : TranslationTask)
    (image_index : Nat) (result error : Option String) (now : Nat)
    (hWF : completedWF task.partial_results) :
    (task.total_images ≤
        terminalCount (updatedResults task image_index result error now) →
      (update_partial_result task image_index result error now).2 = true ∧
      (update_partial_result task image_index result error now).1.completed_at
        = some now ∧
      ((∃ r ∈ updatedResults task image_index result error now,
          r.status = TaskStatus.completed) →
        (update_partial_result task image_index result error now).1.status =
          TaskStatus.completed ∧
        ∀ r, (updatedResults task image_index result error now).find?
            (fun (r : ImageResult) =>
              decide (r.status = TaskStatus.completed)) = some r →
          (update_partial_result task image_index result
              error now).1.translated_text = r.translated_text) ∧
      ((∀ r ∈ updatedResults task image_index result error now,
          r.status ≠ TaskStatus.completed) →
        (update_partial_result task image_index result error now).1.status =
          TaskStatus.failed)) ∧
    (terminalCount (updatedResults task image_index result error now) <
        task.total_images →
      (update_partial_result task image_index result error now).1.status =
        task.status ∧
      (update_partial_result task image_index result error now).2 = false) := by
  unfold update_partial_result
  set R := updatedResults task image_index result error now with hRdef
  set u : TranslationTask := { task with partial_results := R } with hu
  have hWFR : completedWF R := by
    rw [hRdef]
    exact completedWF_updatedResults task image_index result error now hWF
  constructor
  · intro hc
    rw [applyAggregation_terminal u now (by exact hc)]
    dsimp only
    refine ⟨rfl, rfl, ?_, ?_⟩
    · intro hex
      have hcnt : 0 < R.countP
          (fun r => decide (r.status = TaskStatus.completed)) := by
        rw [List.countP_pos_iff]
        rcases hex with ⟨r, hr, hrs⟩
        exact ⟨r, hr, by simp [hrs]⟩
      refine ⟨by rw [if_pos hcnt], ?_⟩
      intro r hfind
      rw [if_pos hcnt]
      have hfeq := find?_completed_of_WF hWFR
      show (match R.find? (fun (r : ImageResult) =>
          decide (r.status = TaskStatus.completed) &&
            optStrTruthy r.translated_text) with
        | some r => r.translated_text
        | none => u.translated_text) = r.translated_text
      rw [hfeq, hfind]
    · intro hall
      have hcnt : R.countP
          (fun r => decide (r.status = TaskStatus.completed)) = 0 := by
        rw [List.countP_eq_zero]
        intro r hr
        simp [hall r hr]
      rw [if_neg (by omega)]
  · intro hc
    rw [applyAggregation_below u now (by exact hc)]
    exact ⟨rfl, rfl⟩

/-- Claim C1 witness: a one-image task whose single update completes
it — the aggregation fires, COMPLETED wins, the first COMPLETED text is
copied, `completed_at` is stamped and the `srem` is issued. -/
theorem update_partial_result_aggregation_witness :
    completedWF (create_task "t" ["img1"] "Vietnamese" 0).partial_results ∧
    ((create_task "t" ["img1"] "Vietnamese" 0).total_images ≤
        terminalCount (updatedResults (create_task "t" ["img1"] "Vietnamese" 0)
          0 (some "hola") none 7) →
      (update_partial_result (create_task "t" ["img1"] "Vietnamese" 0)
          0 (some "hola") none 7).2 = true ∧
      (update_partial_result (create_task "t" ["img1"] "Vietnamese" 0)
          0 (some "hola") none 7).1.completed_at = some 7 ∧
      ((∃ r ∈ updatedResults (create_task "t" ["img1"] "Vietnamese" 0)
          0 (some "hola") none 7, r.status = TaskStatus.completed) →
        (update_partial_result (create_task "t" ["img1"] "Vietnamese" 0)
            0 (some "hola") none 7).1.status = TaskStatus.completed ∧
        ∀ r, (updatedResults (create_task "t" ["img1"] "Vietnamese" 0)
            0 (some "hola") none 7).find?
            (fun (r : ImageResult) =>
              decide (r.status = TaskStatus.completed)) = some r →
          (update_partial_result (create_task "t" ["img1"] "Vietnamese" 0)
              0 (some "hola") none 7).1.translated_text =
            r.translated_text) ∧
      ((∀ r ∈ updatedResults (create_task "t" ["img1"] "Vietnamese" 0)
          0 (some "hola") none 7, r.status ≠ TaskStatus.completed) →
        (update_partial_result (create_task "t" ["img1"] "Vietnamese" 0)
            0 (some "hola") none 7).1.status = TaskStatus.failed)) ∧
    (terminalCount (updatedResults (create_task "t" ["img1"] "Vietnamese" 0)
          0 (some "hola") none 7) <
        (create_task "t" ["img1"] "Vietnamese" 0).total_images →
      (update_partial_result (create_task "t" ["img1"] "Vietnamese" 0)
          0 (some "hola") none 7).1.status =
        (create_task "t" ["img1"] "Vietnamese" 0).status ∧
      (update_partial_result (create_task "t" ["img1"] "Vietnamese" 0)
          0 (some "hola") none 7).2 = false) :=
  ⟨by decide,
    update_partial_result_aggregation (create_task "t" ["img1"] "Vietnamese" 0)
      0 (some "hola") none 7 (by decide)⟩

/-- An in-range update neither pads nor reorders: it is a plain
`List.set` of the freshly built entry. -/
theorem updatedResults_of_inrange (task : TranslationTask) (i : Nat)
    (result error : Option String) (now : Nat)
    (hi : i < task.partial_results.length) :
    updatedResults task i result error now =
      task.partial_results.set i
        (mkEntry (task.partial_results.getD i default) result error
          task.started_at now) := by
  unfold updatedResults
  show (padTo task.partial_results (i + 1)).set i
      (mkEntry ((padTo task.partial_results (i + 1)).getD i default)
        result error task.started_at now) = _
  rw [padTo_eq_self (by omega)]

/-- Claim C5 counterexample: a one-image task whose entry 0 has reached
COMPLETED is overwritten by a further `update_partial_result` for index
0 carrying an error payload — the terminal entry's fields change. -/
theorem terminal_entry_overwritten :
    ((update_partial_result (create_task "t" ["img"] "vi" 0) 0
        (some "a") none 5).1.partial_results.getD 0 default).status =
      TaskStatus.completed ∧
    (update_partial_result
        (update_partial_result (create_task "t" ["img"] "vi" 0) 0
          (some "a") none 5).1 0 none (some "b") 6).1.partial_results.getD 0
        default ≠
      (update_partial_result (create_task "t" ["img"] "vi" 0) 0
        (some "a") none 5).1.partial_results.getD 0 default := by
  decide

/-- Claim C5 as amended: `create_task` initializes `partial_results`
with length `total_images`, and an in-range `update_partial_result`
preserves that length; but no entry is protected once terminal — every
call unconditionally rewrites the entry at its index from the new
payload, so a further call with a different payload changes a terminal
entry. -/
theorem partial_results_length_and_overwrite
    (task_id : String) (imgs : List String) (lang : String) (now0 : Nat)
    (task : TranslationTask) (i : Nat) (result error : Option String)
    (now : Nat) (hi : i < task.partial_results.length) :
    (create_task task_id imgs lang now0).partial_results.length =
      (create_task task_id imgs lang now0).total_images ∧
    (update_partial_result task i result error now).1.partial_results.length
      = task.partial_results.length ∧
    (update_partial_result task i result error
        now).1.partial_results.getD i default =
      mkEntry (task.partial_results.getD i default) result error
        task.started_at now := by
  refine ⟨by simp [create_task], ?_, ?_⟩
  · unfold update_partial_result
    rw [applyAggregation_fst_partial_results]
    show (updatedResults task i result error now).length = _
    rw [updatedResults_of_inrange task i result error now hi,
      List.length_set]
  · unfold update_partial_result
    rw [applyAggregation_fst_partial_results]
    show (updatedResults task i result error now).getD i default = _
    rw [updatedResults_of_inrange task i result error now hi]
    exact list_getD_set_self _ _ _ _ hi

/-- Claim C5 amended witness: a two-image task updated at index 1. -/
theorem partial_results_length_and_overwrite_witness :
    1 < (create_task "w" ["x", "y"] "vi" 3).partial_results.length ∧
    ((create_task "c" ["p"] "en" 0).partial_results.length =
      (create_task "c" ["p"] "en" 0).total_images ∧
    (update_partial_result (create_task "w" ["x", "y"] "vi" 3) 1 none
        (some "e") 9).1.partial_results.length =
      (create_task "w" ["x", "y"] "vi" 3).partial_results.length ∧
    (update_partial_result (create_task "w" ["x", "y"] "vi" 3) 1 none
        (some "e") 9).1.partial_results.getD 1 default =
      mkEntry ((create_task "w" ["x", "y"] "vi" 3).partial_results.getD 1
          default) none (some "e")
        (create_task "w" ["x", "y"] "vi" 3).started_at 9) :=
  ⟨by decide,
    partial_results_length_and_overwrite "c" ["p"] "en" 0
      (create_task "w" ["x", "y"] "vi" 3) 1 none (some "e") 9 (by decide)⟩

/-- Claim C7: one polling iteration returns a 404 for a missing record,
and for a stored task with a non-empty partial-result list it returns
immediately — rather than waiting another interval — as soon as some
partial result or the task itself is terminal, with
`progress_percentage = (terminal count / total_images) * 100`. -/
theorem poll_check_returns_on_terminal (task : TranslationTask)
    (hne : task.partial_results ≠ [])
    (htot : 0 < task.total_images)
    (hterm : 0 < terminalCount task.partial_results ∨
      task.status = TaskStatus.completed ∨
      task.status = TaskStatus.failed) :
    poll_check none = PollStep.notFound 404 ∧
    ∃ resp, poll_check (some task) = PollStep.response resp ∧
      resp.progress_percentage =
        ((terminalCount task.partial_results : ℚ) /
          (task.total_images : ℚ)) * 100 ∧
      resp.completed_images = terminalCount task.partial_results ∧
      resp.total_images = task.total_images := by
  refine ⟨rfl, ?_⟩
  unfold poll_check
  dsimp only
  rw [if_pos (List.length_pos.mpr hne), if_pos hterm]
  refine ⟨_, rfl, ?_, rfl, rfl⟩
  show (if 0 < task.total_images then
      ((terminalCount task.partial_results : ℚ) /
        (task.total_images : ℚ)) * 100
    else 0) = _
  rw [if_pos htot]

/-- Claim C7 witness: a two-image task with one COMPLETED entry polls
back immediately with progress (1 / 2) * 100. -/
theorem poll_check_returns_on_terminal_witness :
    let t : TranslationTask :=
      { task_id := "t"
        target_language := "vi"
        created_at := 0
        total_images := 2
        partial_results :=
          [{ index := 0, status := TaskStatus.completed,
             translated_text := some "x" },
           { index := 1, status := TaskStatus.pending }] }
    (t.partial_results ≠ [] ∧ 0 < t.total_images ∧
      (0 < terminalCount t.partial_results ∨
        t.status = TaskStatus.completed ∨
        t.status = TaskStatus.failed)) ∧
    (poll_check none = PollStep.notFound 404 ∧
      ∃ resp, poll_check (some t) = PollStep.response resp ∧
        resp.progress_percentage =
          ((terminalCount t.partial_results : ℚ) /
            (t.total_images : ℚ)) * 100 ∧
        resp.completed_images = terminalCount t.partial_results ∧
        resp.total_images = t.total_images) :=
  ⟨⟨by decide, by decide, by decide⟩,
    poll_check_returns_on_terminal _ (by decide) (by decide) (by decide)⟩

/-- A redis SET leaves every other key unchanged. -/
theorem lookupTask_setTask_ne (ts : List (String × TranslationTask))
    (id1 id2 : String) (t : TranslationTask) (h : id1 ≠ id2) :
    lookupTask (setTask ts id1 t) id2 = lookupTask ts id2 := by
  show (if id1 = id2 then some t else lookupTask ts id2) = lookupTask ts id2
  rw [if_neg h]

/-- Failing one task leaves every other task record unchanged. -/
theorem update_failed_lookup_ne (ts : List (String × TranslationTask))
    (idx id : String) (e : String) (pt : Option Int) (now : Nat)
    (h : idx ≠ id) :
    lookupTask (update_task_status_failed ts idx e pt now).1 id =
      lookupTask ts id := by
  unfold update_task_status_failed
  cases hl : lookupTask ts idx with
  | none => rfl
  | some t0 =>
      dsimp only
      exact lookupTask_setTask_ne ts idx id _ h

/-- Invariant of the cleanup fold: an id whose record is absent or has
no `started_at` keeps its processing-set membership and its stored
record across every iteration. -/
theorem cleanup_fold_skips (maxT now : Nat) (id : String)
    (orig : Option TranslationTask)
    (hskip : orig = none ∨ ∃ t, orig = some t ∧ t.started_at = none) :
    ∀ (l : List String) (acc : TaskStore × Nat),
      id ∈ acc.1.processing → lookupTask acc.1.tasks id = orig →
      id ∈ (l.foldl (cleanup_step maxT now) acc).1.processing ∧
        lookupTask (l.foldl (cleanup_step maxT now) acc).1.tasks id = orig
  | [], _, hmem, hlook => ⟨hmem, hlook⟩
  | x :: l, acc, hmem, hlook => by
      have hstep : id ∈ (cleanup_step maxT now acc x).1.processing ∧
          lookupTask (cleanup_step maxT now acc x).1.tasks id = orig := by
        unfold cleanup_step
        cases hl : lookupTask acc.1.tasks x with
        | none => exact ⟨hmem, hlook⟩
        | some t =>
            dsimp only
            cases hs : t.started_at with
            | none => exact ⟨hmem, hlook⟩
            | some s =>
                dsimp only
                have hxid : x ≠ id := by
                  intro he
                  subst he
                  have horig : orig = some t := hlook.symm.trans hl
                  rcases hskip with h0 | ⟨t', ht', hstart⟩
                  · rw [h0] at horig
                    cases horig
                  · rw [ht'] at horig
                    have ht : t' = t := by
                      injection horig
                    rw [ht, hs] at hstart
                    cases hstart
                by_cases hd : ((now : Int) - (s : Int)) > (maxT : Int)
                · rw [if_pos hd]
                  constructor
                  · show id ∈ acc.1.processing.erase x
                    exact (List.mem_erase_of_ne (Ne.symm hxid)).mpr hmem
                  · show lookupTask (update_task_status_failed acc.1.tasks x
                        (timeoutErrorMsg ((now : Int) - (s : Int)))
                        (some ((now : Int) - (s : Int))) now).1 id = orig
                    rw [update_failed_lookup_ne _ _ _ _ _ _ hxid]
                    exact hlook
                · rw [if_neg hd]
                  exact ⟨hmem, hlook⟩
      exact cleanup_fold_skips maxT now id orig hskip l _ hstep.1 hstep.2

/-- Claim C10: an id in the processing set whose task record is absent
or carries no `started_at` is never failed and never removed by
`cleanup_stale_tasks`, no matter how long it has been there: it is still
in the processing set after the run and its record is untouched. -/
theorem cleanup_preserves_unstarted (st : TaskStore)
    (max_processing_time now : Nat) (id : String)
    (hmem : id ∈ st.processing)
    (hskip : lookupTask st.tasks id = none ∨
      ∃ t, lookupTask st.tasks id = some t ∧ t.started_at = none) :
    id ∈ (cleanup_stale_tasks st max_processing_time now).1.processing ∧
      lookupTask (cleanup_stale_tasks st max_processing_time
        now).1.tasks id = lookupTask st.tasks id := by
  unfold cleanup_stale_tasks
  exact cleanup_fold_skips max_processing_time now id
    (lookupTask st.tasks id) hskip st.processing (st, 0) hmem rfl

/-- Claim C10 witness: id a has no record and sits next to a genuinely
stale id b; after the run a is still in the processing set with no
record. -/
theorem cleanup_preserves_unstarted_witness :
    let stale : TranslationTask :=
      { task_id := "b", target_language := "vi", created_at := 0,
        started_at := some 0 }
    let st : TaskStore :=
      { tasks := [("b", stale)], processing := ["a", "b"] }
    ("a" ∈ st.processing ∧ lookupTask st.tasks "a" = none) ∧
    ("a" ∈ (cleanup_stale_tasks st 600 100000).1.processing ∧
      lookupTask (cleanup_stale_tasks st 600 100000).1.tasks "a" =
        lookupTask st.tasks "a") :=
  ⟨⟨by decide, by decide⟩,
    cleanup_preserves_unstarted _ 600 100000 "a" (by decide)
      (Or.inl (by decide))⟩
